import Mathlib

/-!
Verification development for the METAR decoding engine of the
`ha-metar-weather` integration.

The definitions below are a shallow embedding of the Python source
(`custom_components/ha_metar_weather/metar_parser.py`,
`api_client.py`, `utils.py`, `const.py`):

* Python `float` values are modelled as exact rationals (`ℚ`); the one
  transcendental computation (the Magnus humidity formula, which uses
  `10.0 ** x`) is idealised over `ℝ` and is `noncomputable`, but every
  claim below only exercises its `None` paths.
* Python `round(x, n)` (round-half-to-even on decimals) is modelled by
  `pyRound`.
* Python strings are `String` / `List Char`; tokens (elements of
  `raw_metar.split()`) are `List Char`.
* The specific regular expressions of the source (`re.match`, i.e.
  anchored at the start only, greedy with backtracking) are embedded as
  explicit character-list matchers.
* `None`-able values are `Option`; dictionaries with a fixed key set are
  structures. The `runway_states` entry of the parsed dictionary is not
  modelled (no claim concerns it); the AVWX `metar_data` object passed to
  the parser is modelled as attribute-less, so only the raw-string code
  paths (which are the ones all claims are about) are embedded.
-/

/-- Tokens of a METAR report (elements of Python's `str.split()`). -/
abbrev Tok := List Char

/-! ## Python string/number helpers -/

/-- Value of a decimal digit character (Python `int` of a digit). -/
def dval (c : Char) : ℕ := c.toNat - 48

/-- The decimal digit character for `n % 10` (how Python prints one digit). -/
def dChar (n : ℕ) : Char := Char.ofNat (48 + n % 10)

/-- Python `int(s)` on a string of decimal digits. -/
def digitsToNat (cs : Tok) : ℕ := cs.foldl (fun a c => a * 10 + dval c) 0

/-- Python `s.isdigit()` (restricted to ASCII, which is all METAR uses). -/
def pyIsdigit (cs : Tok) : Bool := !cs.isEmpty && cs.all Char.isDigit

/-- Python's substring test `needle in hay`. -/
def containsSub (n : Tok) : Tok → Bool
  | [] => n.isPrefixOf []
  | c :: cs => n.isPrefixOf (c :: cs) || containsSub n cs

/-- Python `str.split()` with no argument: split on runs of whitespace,
dropping empty pieces. -/
def pySplitAux (acc : Tok) : List Char → List Tok
  | [] => if acc.isEmpty then [] else [acc.reverse]
  | c :: cs =>
    if c.isWhitespace then
      if acc.isEmpty then pySplitAux [] cs else acc.reverse :: pySplitAux [] cs
    else pySplitAux (c :: acc) cs

def pySplit (s : String) : List Tok := pySplitAux [] s.toList

/-- One `digitpart` of Python's `float()` grammar: digits with single
underscores allowed between digits.  Returns the accumulated value, the
number of digits consumed so far, and the remaining characters. -/
def digitpartAux (acc cnt : ℕ) : Tok → ℕ × ℕ × Tok
  | [] => (acc, cnt, [])
  | c :: cs =>
    if c.isDigit then digitpartAux (acc * 10 + dval c) (cnt + 1) cs
    else if c = '_' then
      match cs with
      | d :: cs2 =>
        if d.isDigit then digitpartAux (acc * 10 + dval d) (cnt + 1) cs2
        else (acc, cnt, c :: cs)
      | [] => (acc, cnt, [c])
    else (acc, cnt, c :: cs)

/-- The optional exponent suffix of Python's `float()` grammar, applied to an
already-parsed mantissa; the whole remaining input must be consumed. -/
def pyFloatExp (m : ℚ) : Tok → Option ℚ
  | [] => some m
  | c :: cs =>
    if c = 'e' ∨ c = 'E' then
      let (esgn, cs1) : ℤ × Tok :=
        match cs with
        | '+' :: r => (1, r)
        | '-' :: r => (-1, r)
        | _ => (1, cs)
      match cs1 with
      | d :: r =>
        if d.isDigit then
          match digitpartAux (dval d) 1 r with
          | (ev, _, rest) => if rest.isEmpty then some (m * (10 : ℚ) ^ (esgn * ev)) else none
        else none
      | [] => none
    else none

/-- Python `float(s)` on a non-empty, non-whitespace string: optional sign,
then `digits [. digits] | . digits`, then an optional exponent.  (`inf`/`nan`
inputs are outside the rational model and yield `none`; no code path a claim
exercises can produce them.) -/
def pyFloat? (cs : Tok) : Option ℚ :=
  let (sgn, cs1) : ℚ × Tok :=
    match cs with
    | '+' :: r => (1, r)
    | '-' :: r => (-1, r)
    | _ => (1, cs)
  match cs1 with
  | c :: r =>
    if c.isDigit then
      match digitpartAux (dval c) 1 r with
      | (iv, _, rest) =>
        match rest with
        | '.' :: r2 =>
          match r2 with
          | d :: r3 =>
            if d.isDigit then
              match digitpartAux (dval d) 1 r3 with
              | (fv, fc, rest2) => (pyFloatExp ((iv : ℚ) + (fv : ℚ) / 10 ^ fc) rest2).map (sgn * ·)
            else (pyFloatExp (iv : ℚ) r2).map (sgn * ·)
          | [] => (pyFloatExp (iv : ℚ) [] ).map (sgn * ·)
        | _ => (pyFloatExp (iv : ℚ) rest).map (sgn * ·)
    else if c = '.' then
      match r with
      | d :: r2 =>
        if d.isDigit then
          match digitpartAux (dval d) 1 r2 with
          | (fv, fc, rest) => (pyFloatExp ((fv : ℚ) / 10 ^ fc) rest).map (sgn * ·)
        else none
      | [] => none
    else none
  | [] => none

/-- Python's `round` to an integer: round half to even. -/
def rhe (q : ℚ) : ℤ :=
  if q - ⌊q⌋ < 1/2 then ⌊q⌋
  else if q - ⌊q⌋ > 1/2 then ⌊q⌋ + 1
  else if ⌊q⌋ % 2 = 0 then ⌊q⌋ else ⌊q⌋ + 1

/-- Python `round(x, ndigits)` for a non-negative `ndigits`, idealised over
exact rationals. -/
def pyRound (ndigits : ℕ) (x : ℚ) : ℚ := (rhe (x * 10 ^ ndigits) : ℚ) / 10 ^ ndigits

/-! ## Unit conversion factors (`const.py`) -/

def KNOTS_TO_KMH : ℚ := 1.852
def MPS_TO_KMH : ℚ := 3.6
def MILES_TO_KM : ℚ := 1.60934
def INHG_TO_HPA : ℚ := 33.8639

/-! ## Wind parsing (`MetarParser._parse_wind`)

The source scans every token of the report and mutates a result
dictionary; each recognised wind token overwrites the relevant entries.
The regexes `VRB(\d{2,3})(?:G(\d{2,3}))?KT`,
`(\d{3})(\d{2,3})(?:G(\d{2,3}))?KT` (and their `MPS` twins) and
`(\d{2,3})V(\d{2,3})` are `re.match`-anchored at the start only and
greedy with backtracking, embedded below with the same backtracking
order. -/

/-- Match exactly `n` leading digit characters, accumulating their value. -/
def takeDigitsAux (acc : ℕ) : ℕ → Tok → Option (ℕ × Tok)
  | 0, cs => some (acc, cs)
  | n + 1, c :: cs => if c.isDigit then takeDigitsAux (acc * 10 + dval c) n cs else none
  | _ + 1, [] => none

def takeDigits (n : ℕ) (cs : Tok) : Option (ℕ × Tok) := takeDigitsAux 0 n cs

/-- Match `(?:G(\d{2,3}))?UNIT` as a prefix (greedy: the `G` group first,
inside it 3 digits before 2). -/
def matchGustUnit (unit : Tok) (cs : Tok) : Option (Option ℕ) :=
  (match cs with
   | 'G' :: r =>
     (do
       let (g, r2) ← takeDigits 3 r
       if unit.isPrefixOf r2 then pure (some g) else none) <|>
     (do
       let (g, r2) ← takeDigits 2 r
       if unit.isPrefixOf r2 then pure (some g) else none)
   | _ => none) <|>
  (if unit.isPrefixOf cs then some none else none)

/-- Match `(\d{2,3})(?:G(\d{2,3}))?UNIT` as a prefix (speed greedy: 3 digits
before 2, backtracking into the gust group). -/
def matchSpeedRest (unit : Tok) (cs : Tok) : Option (ℕ × Option ℕ) :=
  (do
    let (s, r) ← takeDigits 3 cs
    let g ← matchGustUnit unit r
    pure (s, g)) <|>
  (do
    let (s, r) ← takeDigits 2 cs
    let g ← matchGustUnit unit r
    pure (s, g))

/-- `re.match(r'(\d{3})(\d{2,3})(?:G(\d{2,3}))?UNIT', part)`. -/
def matchStdWind (unit : Tok) (cs : Tok) : Option (ℕ × ℕ × Option ℕ) := do
  let (d, r) ← takeDigits 3 cs
  let (s, g) ← matchSpeedRest unit r
  pure (d, s, g)

/-- `re.match(r'VRB(\d{2,3})(?:G(\d{2,3}))?UNIT', part)`. -/
def matchVrbWind (unit : Tok) (cs : Tok) : Option (ℕ × Option ℕ) :=
  if ['V', 'R', 'B'].isPrefixOf cs then matchSpeedRest unit (cs.drop 3) else none

/-- `re.match(r'(\d{2,3})V(\d{2,3})', part)` (both groups greedy, prefix
match). -/
def matchVarRange (cs : Tok) : Option (ℕ × ℕ) :=
  (do
    let (a, r) ← takeDigits 3 cs
    matchVarRangeTail a r) <|>
  (do
    let (a, r) ← takeDigits 2 cs
    matchVarRangeTail a r)
where
  matchVarRangeTail (a : ℕ) : Tok → Option (ℕ × ℕ)
    | 'V' :: r2 =>
      (do
        let (b, _) ← takeDigits 3 r2
        pure (a, b)) <|>
      (do
        let (b, _) ← takeDigits 2 r2
        pure (a, b))
    | _ => none

/-- `f"{n:03d}"` for the values that reach it (0–360). -/
def fmt3 (n : ℕ) : String :=
  (if n < 10 then "00" else if n < 100 then "0" else "") ++ toString n

/-- `f"{start_dir:03d}°-{end_dir:03d}°"`. -/
def fmtDeg (a b : ℕ) : String := fmt3 a ++ "°-" ++ fmt3 b ++ "°"

/-- The result dictionary of `_parse_wind` (`variable_` is the `"variable"`
key; `variable` is a Lean keyword). -/
structure WindData where
  speed : Option ℚ
  direction : Option ℚ
  gust : Option ℚ
  variable_ : Option String
  deriving Repr, DecidableEq

def windInit : WindData := ⟨none, none, none, none⟩

/-- One iteration of the `for part in raw_parts` loop of `_parse_wind`. -/
def windStep (result : WindData) (part : Tok) : WindData :=
  if containsSub ['K', 'T'] part then
    match matchVrbWind ['K', 'T'] part with
    | some (speed_kt, g) =>
      let r1 := { result with direction := none, variable_ := some "VRB" }
      if speed_kt ≤ 200 then
        let r2 := { r1 with speed := some (pyRound 1 (speed_kt * KNOTS_TO_KMH)) }
        match g with
        | some gust_kt =>
          if gust_kt ≤ 300 then { r2 with gust := some (pyRound 1 (gust_kt * KNOTS_TO_KMH)) }
          else r2
        | none => r2
      else r1
    | none =>
      match matchStdWind ['K', 'T'] part with
      | some (direction, speed_kt, g) =>
        if speed_kt = 0 ∧ direction = 0 then { result with direction := none, speed := some 0 }
        else if direction ≤ 360 then
          let r1 := { result with direction := some (direction : ℚ) }
          if speed_kt ≤ 200 then
            let r2 := { r1 with speed := some (pyRound 1 (speed_kt * KNOTS_TO_KMH)) }
            match g with
            | some gust_kt =>
              if gust_kt ≤ 300 then { r2 with gust := some (pyRound 1 (gust_kt * KNOTS_TO_KMH)) }
              else r2
            | none => r2
          else r1
        else result
      | none => result
  else if containsSub ['M', 'P', 'S'] part then
    match matchVrbWind ['M', 'P', 'S'] part with
    | some (speed_ms, g) =>
      let r1 := { result with direction := none, variable_ := some "VRB" }
      if speed_ms ≤ 100 then
        let r2 := { r1 with speed := some (pyRound 1 (speed_ms * MPS_TO_KMH)) }
        match g with
        | some gust_ms =>
          if gust_ms ≤ 150 then { r2 with gust := some (pyRound 1 (gust_ms * MPS_TO_KMH)) }
          else r2
        | none => r2
      else r1
    | none =>
      match matchStdWind ['M', 'P', 'S'] part with
      | some (direction, speed_ms, g) =>
        if speed_ms = 0 ∧ direction = 0 then { result with direction := none, speed := some 0 }
        else if direction ≤ 360 then
          let r1 := { result with direction := some (direction : ℚ) }
          if speed_ms ≤ 100 then
            let r2 := { r1 with speed := some (pyRound 1 (speed_ms * MPS_TO_KMH)) }
            match g with
            | some gust_ms =>
              if gust_ms ≤ 150 then { r2 with gust := some (pyRound 1 (gust_ms * MPS_TO_KMH)) }
              else r2
            | none => r2
          else r1
        else result
      | none => result
  else if part.contains 'V' && decide (5 ≤ part.length) && decide (part.length ≤ 7) then
    match matchVarRange part with
    | some (start_dir, end_dir) =>
      if start_dir ≤ 360 ∧ end_dir ≤ 360 then
        { result with variable_ := some (fmtDeg start_dir end_dir) }
      else result
    | none => result
  else result

/-- `MetarParser._parse_wind` (direction/speed lower bounds `0 ≤ _` of the
source are automatic over `ℕ`). -/
def parse_wind (raw_parts : List Tok) : WindData := raw_parts.foldl windStep windInit

/-! ## Temperature / dew point (`MetarParser._parse_temp_dew`) -/

/-- Python `s.replace('M', '-')`. -/
def replM (cs : Tok) : Tok := cs.map (fun c => if c = 'M' then '-' else c)

/-- First-character shape check of `_parse_temp_dew`:
`s and (s[0].isdigit() or s[0] == 'M')`. -/
def tempDewHeadOk (cs : Tok) : Bool :=
  match cs with
  | [] => false
  | c :: _ => c.isDigit || c = 'M'

/-- `MetarParser._parse_temp_dew`.  A `ValueError` from `float()` is caught by
the surrounding `try` of the source and turns into `(None, None)` for the
whole function, which is how the `none` results of `pyFloat?` are handled. -/
def parse_temp_dew : List Tok → Option ℚ × Option ℚ
  | [] => (none, none)
  | part :: rest =>
    if part.contains '/' then
      match part.splitOn '/' with
      | [temp_str, dew_str] =>
        if !tempDewHeadOk temp_str then parse_temp_dew rest
        else if !tempDewHeadOk dew_str then parse_temp_dew rest
        else if 3 < temp_str.length ∨ 3 < dew_str.length then parse_temp_dew rest
        else
          match pyFloat? (replM temp_str), pyFloat? (replM dew_str) with
          | some temp_val, some dew_val =>
            if ¬(-100 ≤ temp_val ∧ temp_val ≤ 60) then (none, none)
            else if ¬(-100 ≤ dew_val ∧ dew_val ≤ 60) then (none, none)
            else (some temp_val, some dew_val)
          | _, _ => (none, none)
      | _ => parse_temp_dew rest
    else parse_temp_dew rest

/-! ## Pressure (`MetarParser._parse_pressure`) -/

/-- `MetarParser._parse_pressure`: `Qdddd` is hPa directly, `Adddd` is
inHg·100 converted via `INHG_TO_HPA`; a `ValueError` continues the scan. -/
def parse_pressure : List Tok → Option ℚ
  | [] => none
  | part :: rest =>
    if ['Q'].isPrefixOf part && decide (4 ≤ part.length) then
      match pyFloat? (part.drop 1) with
      | some v => some v
      | none => parse_pressure rest
    else if ['A'].isPrefixOf part && decide (part.length = 5) then
      match pyFloat? (part.drop 1) with
      | some v => some (pyRound 1 (v / 100 * INHG_TO_HPA))
      | none => parse_pressure rest
    else parse_pressure rest

/-! ## Humidity (`utils.calculate_humidity`)

The Magnus formula uses the float power `10.0 ** x`; it is idealised over
`ℝ` (hence `noncomputable`), with the result of `round(_, 1)` an exact
rational again.  Over `ℝ` the guard `es <= 0` is kept (it is never true)
and the `OverflowError` branch of the source cannot occur. -/

open scoped Classical in
/-- Round-half-to-even over `ℝ` (for Python's `round` inside the humidity
computation only). -/
noncomputable def rheR (x : ℝ) : ℤ :=
  if x - ⌊x⌋ < 1/2 then ⌊x⌋
  else if x - ⌊x⌋ > 1/2 then ⌊x⌋ + 1
  else if ⌊x⌋ % 2 = 0 then ⌊x⌋ else ⌊x⌋ + 1

open scoped Classical in
/-- The guarded Magnus core of `calculate_humidity` for present inputs. -/
noncomputable def magnusHumidity (temp dew : ℚ) : Option ℚ :=
  let e : ℝ := 6.11 * (10 : ℝ) ^ ((7.5 * (dew : ℝ)) / (237.7 + (dew : ℝ)))
  let es : ℝ := 6.11 * (10 : ℝ) ^ ((7.5 * (temp : ℝ)) / (237.7 + (temp : ℝ)))
  if es ≤ 0 then none
  else
    let humidity : ℚ := (rheR (e / es * 100 * 10) : ℚ) / 10
    some (max 0 (min 100 humidity))

/-- `utils.calculate_humidity`. -/
noncomputable def calculate_humidity (temp dew : Option ℚ) : Option ℚ :=
  match temp, dew with
  | some t, some d =>
    if 237.7 + t ≤ 0.1 ∨ 237.7 + d ≤ 0.1 then none
    else magnusHumidity t d
  | _, _ => none

/-! ## Cloud layers (`MetarParser.parse_cloud_layers` and friends) -/

/-- `const.CLOUD_COVERAGE`. -/
def CLOUD_COVERAGE : List (String × String) :=
  [("SKC", "Clear sky"), ("CLR", "No clouds below 12,000ft"),
   ("NSC", "No significant clouds"), ("NCD", "No clouds detected"),
   ("CAVOK", "Ceiling and visibility OK"), ("FEW", "Few (1-2 oktas)"),
   ("SCT", "Scattered (3-4 oktas)"), ("BKN", "Broken (5-7 oktas)"),
   ("OVC", "Overcast (8 oktas)"), ("VV", "Vertical visibility")]

/-- `const.CLOUD_TYPES`. -/
def CLOUD_TYPES : List (String × String) :=
  [("CB", "Cumulonimbus"), ("TCU", "Towering Cumulus"), ("CI", "Cirrus"),
   ("CS", "Cirrostratus"), ("CC", "Cirrocumulus"), ("AS", "Altostratus"),
   ("AC", "Altocumulus"), ("NS", "Nimbostratus"), ("SC", "Stratocumulus"),
   ("ST", "Stratus"), ("CU", "Cumulus")]

/-- `metar_parser.CloudLayer` (heights are `int` feet in the source,
embedded into `ℚ`). -/
structure CloudLayer where
  coverage : String
  height : Option ℚ
  type : Option String
  deriving Repr, DecidableEq

/-- The body of the `for part in parts` loop of `parse_cloud_layers`:
the layer this token contributes, if any. -/
def cloudLayerOfPart (part : Tok) : Option CloudLayer :=
  if ["FEW", "SCT", "BKN", "OVC"].any (fun p => p.toList.isPrefixOf part) then
    let coverage_code := String.mk (part.take 3)
    let coverage := ((CLOUD_COVERAGE.lookup coverage_code).getD coverage_code)
    let height : Option ℚ :=
      if 6 ≤ part.length && ((part.drop 3).take 3).all Char.isDigit then
        some ((digitsToNat ((part.drop 3).take 3) * 100 : ℕ) : ℚ)
      else none
    let cloud_type : Option String :=
      if 6 < part.length then CLOUD_TYPES.lookup (String.mk (part.drop 6)) else none
    some ⟨coverage, height, cloud_type⟩
  else if ["SKC", "CLR", "NSC", "NCD", "CAVOK"].any (fun p => p.toList = part) then
    let coverage := ((CLOUD_COVERAGE.lookup (String.mk part)).getD (String.mk part))
    some ⟨coverage, none, none⟩
  else if ['V', 'V'].isPrefixOf part then
    let height_str := if 5 ≤ part.length then (part.drop 2).take 3 else part.drop 2
    if height_str.isEmpty then none
    else if height_str = ['/', '/', '/'] then
      some ⟨"Vertical Visibility", none, some "Obscured (undefined)"⟩
    else if height_str.all Char.isDigit then
      some ⟨"Vertical Visibility", some ((digitsToNat height_str * 100 : ℕ) : ℚ), some "Obscured"⟩
    else none
  else none

/-- `MetarParser.parse_cloud_layers` (the per-call cache of the source is
just memoisation of this pure function). -/
def parse_cloud_layers (raw_parts : List Tok) : List CloudLayer :=
  raw_parts.filterMap cloudLayerOfPart

/-- `MetarParser.parse_cloud_coverage`. -/
def parse_cloud_coverage (raw_parts : List Tok) : String :=
  match parse_cloud_layers raw_parts with
  | [] => "Clear"
  | l :: _ => l.coverage

/-- `MetarParser.parse_cloud_height`. -/
def parse_cloud_height (raw_parts : List Tok) : Option ℚ :=
  match parse_cloud_layers raw_parts with
  | [] => none
  | l :: _ => l.height

/-- `MetarParser.parse_cloud_type`. -/
def parse_cloud_type (raw_parts : List Tok) : String :=
  match parse_cloud_layers raw_parts with
  | [] => "N/A"
  | l :: _ => (l.type).getD "N/A"

/-! ## Present weather (`MetarParser.parse_weather`) -/

/-- `const.WEATHER_PHENOMENA`. -/
def WEATHER_PHENOMENA : List (String × String) :=
  [("-", "Light"), ("+", "Heavy"), ("VC", "Vicinity"),
   ("MI", "Shallow"), ("PR", "Partial"), ("BC", "Patches"),
   ("DR", "Low Drifting"), ("BL", "Blowing"), ("SH", "Shower"),
   ("TS", "Thunderstorm"), ("FZ", "Freezing"),
   ("DZ", "Drizzle"), ("RA", "Rain"), ("SN", "Snow"), ("SG", "Snow Grains"),
   ("IC", "Ice Crystals"), ("PL", "Ice Pellets"), ("GR", "Hail"),
   ("GS", "Small Hail"), ("UP", "Unknown Precipitation"),
   ("BR", "Mist"), ("FG", "Fog"), ("FU", "Smoke"), ("VA", "Volcanic Ash"),
   ("DU", "Widespread Dust"), ("SA", "Sand"), ("HZ", "Haze"), ("PY", "Spray"),
   ("PO", "Dust/Sand Whirls"), ("SQ", "Squalls"), ("FC", "Funnel Cloud"),
   ("SS", "Sandstorm"), ("DS", "Duststorm")]

/-- The descriptor codes of `parse_weather`. -/
def DESCRIPTORS : List String := ["MI", "PR", "BC", "DR", "BL", "SH", "TS", "FZ"]

/-- The `while len(remaining) >= 2` loop of `parse_weather`: greedy
consumption of 2-character groups; a descriptor overwrites the descriptor
slot, known phenomena are appended, an unknown group stops. Returns the
final descriptor and the phenomena list. -/
def wxGroups (descriptor : Option String) (phenomena : List String) :
    Tok → Option String × List String
  | c1 :: c2 :: rest =>
    let code := String.mk [c1, c2]
    if code ∈ DESCRIPTORS then
      wxGroups (some ((WEATHER_PHENOMENA.lookup code).getD code)) phenomena rest
    else
      match WEATHER_PHENOMENA.lookup code with
      | some w => wxGroups descriptor (phenomena ++ [w]) rest
      | none => (descriptor, phenomena)
  | _ => (descriptor, phenomena)

/-- The skip conditions at the top of the `parse_weather` loop body. -/
def wxSkip (part : Tok) : Bool :=
  (['K', 'T'].isSuffixOf part || ['M', 'P', 'S'].isSuffixOf part ||
   part.contains '/' || ['Q'].isPrefixOf part || pyIsdigit part ||
   part = "NOSIG".toList || part = "CAVOK".toList) ||
  (['A'].isPrefixOf part && decide (part.length = 5) && pyIsdigit (part.drop 1)) ||
  (["TEMPO", "BECMG", "FM", "TL", "AT", "PROB30", "PROB40", "SKC", "CLR", "NSC",
    "NCD", "AUTO", "COR"].any (fun p => p.toList = part))

/-- The weather description one body token contributes (empty string if
none): intensity / vicinity prefix, then the 2-character-group loop, then
`' '.join(filter(None, [intensity, descriptor, weather]))`. -/
def wxOfPart (original_part : Tok) : String :=
  let (intensity, current_part) : String × Tok :=
    match original_part with
    | '-' :: rest => ((WEATHER_PHENOMENA.lookup "-").getD "", rest)
    | '+' :: rest => ((WEATHER_PHENOMENA.lookup "+").getD "", rest)
    | _ =>
      if ['V', 'C'].isPrefixOf original_part then
        ((WEATHER_PHENOMENA.lookup "VC").getD "VC", original_part.drop 2)
      else ("", original_part)
  let (descriptor, phenomena) := wxGroups none [] current_part
  let weather := String.intercalate " " phenomena
  String.intercalate " "
    (([intensity, descriptor.getD "", weather]).filter (fun s => !s.isEmpty))

/-- The main loop of `parse_weather`: stops at `RMK`, skips non-weather
tokens, de-duplicates assembled descriptions. -/
def wxCodes (acc : List String) : List Tok → List String
  | [] => acc
  | part :: rest =>
    if part = "RMK".toList then acc
    else if wxSkip part then wxCodes acc rest
    else
      let w := wxOfPart part
      if !w.isEmpty && !(acc.contains w) then wxCodes (acc ++ [w]) rest
      else wxCodes acc rest

/-- `MetarParser.parse_weather` (the `metar.cavok` attribute of the external
AVWX object is modelled as absent, i.e. `False`, keeping only the raw-string
path). -/
def parse_weather (raw_parts : List Tok) : String :=
  let base := wxCodes [] raw_parts
  let codes := base
    ++ (if raw_parts.contains "RESN".toList then ["Recent Snow"] else [])
    ++ (if raw_parts.contains "RETS".toList then ["Recent Thunderstorm"] else [])
    ++ (if raw_parts.contains "RERA".toList then ["Recent Rain"] else [])
  if codes.isEmpty then "Clear" else String.intercalate ", " codes

/-- `MetarParser.parse_trend` (again with the external AVWX attributes
absent, leaving the raw-string `NOSIG` check). -/
def parse_trend (raw_metar : String) : Option String :=
  if containsSub "NOSIG".toList raw_metar.toList then some "No significant change" else none

/-! ## Visibility (inline in `MetarParser.get_parsed_data`) -/

/-- `re.match(r'^\d{3}V\d{3}$', part)` as a Bool. -/
def isDddVddd (part : Tok) : Bool :=
  part.length = 7 && (part.take 3).all Char.isDigit && part.get? 3 = some 'V' &&
    (part.drop 4).all Char.isDigit

/-- `re.match(r'^\d{4}$', part)`. -/
def matchMeters4 (part : Tok) : Option ℕ :=
  if part.length = 4 && part.all Char.isDigit then some (digitsToNat part) else none

/-- `re.match(r'^(\d{4})NDV$', part)`. -/
def matchMeters4NDV (part : Tok) : Option ℕ :=
  if part.length = 7 && (part.take 4).all Char.isDigit && part.drop 4 = ['N', 'D', 'V'] then
    some (digitsToNat (part.take 4))
  else none

def isNSEW (c : Char) : Bool := c = 'N' || c = 'S' || c = 'E' || c = 'W'

/-- `re.match(r'^(\d{4})([NSEW]{1,2})$', part)`. -/
def matchMeters4Dir (part : Tok) : Option ℕ :=
  if (part.length = 5 || part.length = 6) && (part.take 4).all Char.isDigit &&
      (part.drop 4).all isNSEW then
    some (digitsToNat (part.take 4))
  else none

/-- `re.match(r'^P?(\d+)SM$', part)`. -/
def matchSM (part : Tok) : Option ℕ :=
  let body := match part with
    | 'P' :: r => r
    | _ => part
  if 3 ≤ body.length && (body.take (body.length - 2)).all Char.isDigit &&
      body.drop (body.length - 2) = ['S', 'M'] then
    some (digitsToNat (body.take (body.length - 2)))
  else none

/-- `re.match(r'^(\d+)/(\d+)SM$', part)`. -/
def matchFracSM (part : Tok) : Option (ℕ × ℕ) :=
  let num := part.takeWhile Char.isDigit
  let rest := part.dropWhile Char.isDigit
  match rest with
  | '/' :: r2 =>
    let den := r2.takeWhile Char.isDigit
    let r3 := r2.dropWhile Char.isDigit
    if !num.isEmpty && !den.isEmpty && r3 = ['S', 'M'] then
      some (digitsToNat num, digitsToNat den)
    else none
  | _ => none

/-- The stop condition of the visibility scan (`break` at cloud /
temperature / pressure looking tokens). -/
def visStop (part : Tok) : Bool :=
  ["FEW", "SCT", "BKN", "OVC", "SKC", "CLR", "NSC", "VV"].any
    (fun p => p.toList.isPrefixOf part) ||
  part.contains '/' || ['Q'].isPrefixOf part || ['A'].isPrefixOf part

/-- The `for idx, part in enumerate(...)` visibility loop over the search
window; `prev` is the window element just before the current one (what
`raw_parts[wind_index + 1 + idx - 1]` reads for `idx > 0`). -/
def visScan (prev : Option Tok) : List Tok → Option ℚ
  | [] => none
  | part :: rest =>
    if isDddVddd part then visScan (some part) rest
    else if ['R'].isPrefixOf part && part.contains '/' then visScan (some part) rest
    else
      match matchMeters4 part with
      | some vis_meters =>
        some (if vis_meters = 9999 then 10 else (vis_meters : ℚ) / 1000)
      | none =>
      match matchMeters4NDV part with
      | some vis_meters =>
        some (if vis_meters = 9999 then 10 else (vis_meters : ℚ) / 1000)
      | none =>
      match matchMeters4Dir part with
      | some vis_meters =>
        some (if vis_meters = 9999 then 10 else (vis_meters : ℚ) / 1000)
      | none =>
      match matchSM part with
      | some vis_miles => some (pyRound 1 (vis_miles * MILES_TO_KM))
      | none =>
      match matchFracSM part with
      | some (numerator, denominator) =>
        if 0 < denominator then
          let vis_miles : ℚ := (numerator : ℚ) / (denominator : ℚ)
          let vis_miles :=
            match prev with
            | some prev_part =>
              if pyIsdigit prev_part && decide (prev_part.length ≤ 2) &&
                  !(['R'].isPrefixOf prev_part) then
                vis_miles + (digitsToNat prev_part : ℚ)
              else vis_miles
            | none => vis_miles
          some (pyRound 1 (vis_miles * MILES_TO_KM))
        else none
      | none =>
        if visStop part then none else visScan (some part) rest

/-- The index the source starts the visibility search after: the first token
ending in `KT` or `MPS`, with fallback 1 when none is found. -/
def windTokIdx (raw_parts : List Tok) : ℕ :=
  (raw_parts.findIdx?
    (fun part => ['K', 'T'].isSuffixOf part || ['M', 'P', 'S'].isSuffixOf part)).getD 1

/-- The visibility computation of `get_parsed_data`: CAVOK forces 10 km,
otherwise the bounded window
`raw_parts[wind_index + 1 : min(wind_index + 4, len(raw_parts))]` is
scanned. -/
def parseVisibility (cavok : Bool) (raw_parts : List Tok) : Option ℚ :=
  if cavok then some 10
  else
    let wind_index := windTokIdx raw_parts
    let window := (raw_parts.drop (wind_index + 1)).take
      (min (wind_index + 4) raw_parts.length - (wind_index + 1))
    visScan none window

/-! ## The assembled record (`MetarParser.get_parsed_data`) -/

/-- The dictionary returned by `get_parsed_data` (without the
`runway_states` entry, see the header note; numeric values as exact
rationals). -/
structure ParsedData where
  raw_metar : String
  station_name : Option String
  cloud_layers : List CloudLayer
  cloud_coverage_state : String
  cloud_coverage_height : Option ℚ
  cloud_coverage_type : String
  weather : String
  trend : Option String
  temperature : Option ℚ
  dew_point : Option ℚ
  humidity : Option ℚ
  wind_speed : Option ℚ
  wind_direction : Option ℚ
  wind_gust : Option ℚ
  wind_variable_direction : Option String
  visibility : Option ℚ
  pressure : Option ℚ
  cavok : Bool
  auto : Bool
  deriving DecidableEq

/-- The ICAO fallback for the station name (the AVWX `station` attributes
are modelled as absent): first token if it is 4 alphanumeric characters. -/
def stationNameOf (raw_metar : String) : Option String :=
  if raw_metar ≠ "" then
    match pySplit raw_metar with
    | [] => none
    | icao :: _ =>
      if icao.length = 4 && icao.all Char.isAlphanum then some (String.mk icao) else none
  else none

/-- `MetarParser.get_parsed_data`. -/
noncomputable def get_parsed_data (raw_metar : String) : ParsedData :=
  let raw_parts := pySplit raw_metar
  let cavok := containsSub "CAVOK".toList raw_metar.toList
  let wind_data := parse_wind raw_parts
  let td := parse_temp_dew raw_parts
  let pressure := parse_pressure raw_parts
  let humidity := calculate_humidity td.1 td.2
  let cloud_layers := parse_cloud_layers raw_parts
  let visibility := parseVisibility cavok raw_parts
  { raw_metar := raw_metar
    station_name := stationNameOf raw_metar
    cloud_layers := cloud_layers
    cloud_coverage_state := parse_cloud_coverage raw_parts
    cloud_coverage_height := parse_cloud_height raw_parts
    cloud_coverage_type := parse_cloud_type raw_parts
    weather := parse_weather raw_parts
    trend := parse_trend raw_metar
    temperature := td.1
    dew_point := td.2
    humidity := humidity
    wind_speed := wind_data.speed
    wind_direction := wind_data.direction
    wind_gust := wind_data.gust
    wind_variable_direction := wind_data.variable_
    visibility := visibility
    pressure := pressure
    cavok := cavok
    auto := containsSub "AUTO".toList raw_metar.toList }

/-! ## Validation (`MetarApiClient._validate_and_round`, `const.py` tables) -/

/-- `const.VALUE_RANGES` (the `.0` float literals of the source are the
same rational values). -/
def VALUE_RANGES : List (String × (ℚ × ℚ)) :=
  [("temperature", (-100, 60)), ("dew_point", (-100, 60)),
   ("wind_speed", (0, 370)), ("wind_gust", (0, 556)),
   ("visibility", (0, 100)), ("pressure", (900, 1100)),
   ("humidity", (0, 100)), ("cloud_coverage_height", (0, 50000))]

/-- `const.NUMERIC_PRECISION`. -/
def NUMERIC_PRECISION : List (String × ℕ) :=
  [("temperature", 1), ("dew_point", 1), ("wind_speed", 1), ("wind_gust", 1),
   ("visibility", 1), ("pressure", 1), ("humidity", 1), ("cloud_coverage_height", 0)]

/-- What the loop body of `_validate_and_round` does to one dictionary
entry (all numeric entries of the parsed dictionary are numbers or `None`,
so `float(value)` cannot raise here). -/
def validateField (key : String) (value : Option ℚ) : Option ℚ :=
  match value with
  | none => none
  | some float_val =>
    match VALUE_RANGES.lookup key with
    | none => some float_val
    | some (min_val, max_val) =>
      if ¬(min_val ≤ float_val ∧ float_val ≤ max_val) then none
      else
        match NUMERIC_PRECISION.lookup key with
        | some p => some (pyRound p float_val)
        | none => some float_val

/-- `MetarApiClient._validate_and_round`: every key of the copied dictionary
that is in `VALUE_RANGES` is range-checked and rounded; all other entries
are returned unchanged. -/
def validate_and_round (data : ParsedData) : ParsedData :=
  { data with
    temperature := validateField "temperature" data.temperature
    dew_point := validateField "dew_point" data.dew_point
    wind_speed := validateField "wind_speed" data.wind_speed
    wind_gust := validateField "wind_gust" data.wind_gust
    visibility := validateField "visibility" data.visibility
    pressure := validateField "pressure" data.pressure
    humidity := validateField "humidity" data.humidity
    cloud_coverage_height := validateField "cloud_coverage_height" data.cloud_coverage_height }

/-- The numeric fields `VALUE_RANGES` governs, for stating per-field facts. -/
inductive RangedField
  | temperature | dew_point | wind_speed | wind_gust
  | visibility | pressure | humidity | cloud_coverage_height
  deriving DecidableEq, Repr

/-- The dictionary key of a ranged field. -/
def fieldKey : RangedField → String
  | .temperature => "temperature"
  | .dew_point => "dew_point"
  | .wind_speed => "wind_speed"
  | .wind_gust => "wind_gust"
  | .visibility => "visibility"
  | .pressure => "pressure"
  | .humidity => "humidity"
  | .cloud_coverage_height => "cloud_coverage_height"

/-- Projection of a ranged field out of the parsed dictionary. -/
def fieldVal (d : ParsedData) : RangedField → Option ℚ
  | .temperature => d.temperature
  | .dew_point => d.dew_point
  | .wind_speed => d.wind_speed
  | .wind_gust => d.wind_gust
  | .visibility => d.visibility
  | .pressure => d.pressure
  | .humidity => d.humidity
  | .cloud_coverage_height => d.cloud_coverage_height

/-- The declared `(min, max)` bounds of a ranged field. -/
def fieldRange (f : RangedField) : ℚ × ℚ := (VALUE_RANGES.lookup (fieldKey f)).getD (0, 0)

/-! ## Multi-source fetch (`MetarApiClient.fetch_data`)

`fetch_data` awaits the AWC (primary) fetch and, when that yields data,
returns it immediately; only otherwise (no data, or an exception, both
modelled as `none`) is the AVWX fallback consulted.  Each input is one
source's already validated decoded report. -/

def fetch_data (awc avwx : Option ParsedData) : Option ParsedData :=
  match awc with
  | some data => some data
  | none => avwx

/-- Modelled from the spec: the "complete, in-range `pressure`,
`temperature` and `wind` triple" of the multi-source reconciliation rule
(§4.10) — the source has no such comparison, so the criterion is stated
from the spec's words to compare the rule against `fetch_data`. -/
def specCompleteTriple (r : ParsedData) : Bool :=
  (match r.pressure with
   | some p => decide (900 ≤ p ∧ p ≤ 1100)
   | none => false) &&
  (match r.temperature with
   | some t => decide (-100 ≤ t ∧ t ≤ 60)
   | none => false) &&
  (match r.wind_speed with
   | some w => decide (0 ≤ w ∧ w ≤ 370)
   | none => false)

/-- Modelled from the spec: the visibility search window of claim C10 —
"the 3 tokens immediately following the first token ending in `KT` or
`MPS`, or the tokens at positions 3–5 of the report when no such wind
token exists". -/
def specVisWindow (raw_parts : List Tok) : List Tok :=
  match raw_parts.findIdx?
      (fun part => ['K', 'T'].isSuffixOf part || ['M', 'P', 'S'].isSuffixOf part) with
  | some i => (raw_parts.drop (i + 1)).take 3
  | none => (raw_parts.drop 2).take 3

/-! ## Rounding lemmas -/

lemma rhe_bounds (q : ℚ) : q - 1/2 ≤ (rhe q : ℚ) ∧ (rhe q : ℚ) ≤ q + 1/2 := by
  have hfl : (⌊q⌋ : ℚ) ≤ q := Int.floor_le q
  have hfu : q < ⌊q⌋ + 1 := Int.lt_floor_add_one q
  unfold rhe
  split_ifs with h1 h2 h3 <;> constructor <;> push_cast <;> linarith

lemma pyRound_le_of_le (p : ℕ) (x hi : ℚ) (H : ℤ) (hH : (H : ℚ) = hi * 10 ^ p)
    (h : x ≤ hi) : pyRound p x ≤ hi := by
  have h10 : (0 : ℚ) < 10 ^ p := by positivity
  have h1 : x * 10 ^ p ≤ (H : ℚ) := by
    rw [hH]; exact mul_le_mul_of_nonneg_right h h10.le
  have h2 : (rhe (x * 10 ^ p) : ℚ) ≤ x * 10 ^ p + 1/2 := (rhe_bounds _).2
  have h3 : (rhe (x * 10 ^ p) : ℚ) < (H : ℚ) + 1 := by linarith
  have h4 : rhe (x * 10 ^ p) ≤ H := by exact_mod_cast Int.lt_add_one_iff.mp (by exact_mod_cast h3)
  unfold pyRound
  rw [div_le_iff₀ h10, ← hH]
  exact_mod_cast h4

lemma le_pyRound_of_le (p : ℕ) (x lo : ℚ) (L : ℤ) (hL : (L : ℚ) = lo * 10 ^ p)
    (h : lo ≤ x) : lo ≤ pyRound p x := by
  have h10 : (0 : ℚ) < 10 ^ p := by positivity
  have h1 : (L : ℚ) ≤ x * 10 ^ p := by
    rw [hL]; exact mul_le_mul_of_nonneg_right h h10.le
  have h2 : x * 10 ^ p - 1/2 ≤ (rhe (x * 10 ^ p) : ℚ) := (rhe_bounds _).1
  have h3 : (L : ℚ) - 1 < (rhe (x * 10 ^ p) : ℚ) := by linarith
  have h4 : L ≤ rhe (x * 10 ^ p) := by
    have := Int.lt_iff_add_one_le.mp (show L - 1 < rhe (x * 10 ^ p) by exact_mod_cast h3)
    omega
  unfold pyRound
  rw [le_div_iff₀ h10, ← hL]
  exact_mod_cast h4

/-! ## C1: validation leaves every ranged field in range or absent -/

lemma validateField_cases (key : String) (lo hi : ℚ) (p : ℕ) (L H : ℤ)
    (hR : VALUE_RANGES.lookup key = some (lo, hi))
    (hP : NUMERIC_PRECISION.lookup key = some p)
    (hL : (L : ℚ) = lo * 10 ^ p) (hH : (H : ℚ) = hi * 10 ^ p) (v : Option ℚ) :
    (validateField key v = none ∨
      ∃ x, validateField key v = some x ∧ lo ≤ x ∧ x ≤ hi) ∧
    (∀ y, v = some y → ¬(lo ≤ y ∧ y ≤ hi) → validateField key v = none) := by
  cases v with
  | none => exact ⟨Or.inl rfl, by intro y hy; cases hy⟩
  | some y =>
    constructor
    · by_cases hr : lo ≤ y ∧ y ≤ hi
      · right
        refine ⟨pyRound p y, ?_, le_pyRound_of_le p y lo L hL hr.1,
          pyRound_le_of_le p y hi H hH hr.2⟩
        simp [validateField, hR, hP, hr]
      · left; simp [validateField, hR, hP, hr]
    · intro z hz hr
      obtain rfl : y = z := by injection hz
      simp [validateField, hR, hP, hr]

/-- C1: after `_validate_and_round`, every field of the `VALUE_RANGES`
table either carries a value inside its declared `(min, max)` bounds or is
absent, and an input value outside the bounds is set absent (never clamped
into range). -/
theorem C1_validate_and_round_in_range_or_absent (data : ParsedData) (f : RangedField) :
    (fieldVal (validate_and_round data) f = none ∨
      ∃ x, fieldVal (validate_and_round data) f = some x ∧
        (fieldRange f).1 ≤ x ∧ x ≤ (fieldRange f).2) ∧
    (∀ y, fieldVal data f = some y →
      ¬((fieldRange f).1 ≤ y ∧ y ≤ (fieldRange f).2) →
      fieldVal (validate_and_round data) f = none) := by
  cases f
  case temperature =>
    exact validateField_cases "temperature" (-100) 60 1 (-1000) 600 (by decide) (by decide)
      (by norm_num) (by norm_num) data.temperature
  case dew_point =>
    exact validateField_cases "dew_point" (-100) 60 1 (-1000) 600 (by decide) (by decide)
      (by norm_num) (by norm_num) data.dew_point
  case wind_speed =>
    exact validateField_cases "wind_speed" 0 370 1 0 3700 (by decide) (by decide)
      (by norm_num) (by norm_num) data.wind_speed
  case wind_gust =>
    exact validateField_cases "wind_gust" 0 556 1 0 5560 (by decide) (by decide)
      (by norm_num) (by norm_num) data.wind_gust
  case visibility =>
    exact validateField_cases "visibility" 0 100 1 0 1000 (by decide) (by decide)
      (by norm_num) (by norm_num) data.visibility
  case pressure =>
    exact validateField_cases "pressure" 900 1100 1 9000 11000 (by decide) (by decide)
      (by norm_num) (by norm_num) data.pressure
  case humidity =>
    exact validateField_cases "humidity" 0 100 1 0 1000 (by decide) (by decide)
      (by norm_num) (by norm_num) data.humidity
  case cloud_coverage_height =>
    exact validateField_cases "cloud_coverage_height" 0 50000 0 0 50000 (by decide) (by decide)
      (by norm_num) (by norm_num) data.cloud_coverage_height

/-- A concrete parsed record with an out-of-range temperature, for witnesses. -/
def sampleOutOfRange : ParsedData :=
  { raw_metar := "ULLI 271200Z", station_name := some "ULLI", cloud_layers := [],
    cloud_coverage_state := "Clear", cloud_coverage_height := none,
    cloud_coverage_type := "N/A", weather := "Clear", trend := none,
    temperature := some 999, dew_point := none, humidity := none,
    wind_speed := some 18, wind_direction := some 270, wind_gust := none,
    wind_variable_direction := none, visibility := none, pressure := some 1013,
    cavok := false, auto := false }

/-- Witness for C1 at a concrete record: the out-of-range temperature 999 is
set absent by validation. -/
theorem C1_witness :
    fieldVal (validate_and_round sampleOutOfRange) RangedField.temperature = none :=
  (C1_validate_and_round_in_range_or_absent sampleOutOfRange RangedField.temperature).2
    999 rfl (by
      have h : fieldRange RangedField.temperature = (-100, 60) := by decide
      rw [h]; norm_num)

/-! ## Digit-character lemmas -/

lemma dChar_core : ∀ m, m < 10 →
    (Char.ofNat (48 + m)).isDigit = true ∧ dval (Char.ofNat (48 + m)) = m := by decide

lemma dChar_isDigit (n : ℕ) : (dChar n).isDigit = true := by
  have h : n % 10 < 10 := Nat.mod_lt _ (by norm_num)
  simpa [dChar] using (dChar_core (n % 10) h).1

lemma dval_dChar (n : ℕ) : dval (dChar n) = n % 10 := by
  have h : n % 10 < 10 := Nat.mod_lt _ (by norm_num)
  simpa [dChar] using (dChar_core (n % 10) h).2

lemma dChar_ne (n : ℕ) (c : Char) (hc : c.isDigit = false) : dChar n ≠ c := by
  intro h
  have := dChar_isDigit n
  rw [h, hc] at this
  cases this

/-! ## Constructed wind tokens (universally-quantified token shapes) -/

/-- A 2-digit decimal rendering (`n < 100` at use sites). -/
def digits2 (n : ℕ) : Tok := [dChar (n / 10), dChar n]

/-- A 3-digit decimal rendering (`n < 1000` at use sites). -/
def digits3 (n : ℕ) : Tok := [dChar (n / 100), dChar (n / 10), dChar n]

/-- The `\d{2,3}` rendering of a speed group. -/
def digits23 (n : ℕ) : Tok := if n < 100 then digits2 n else digits3 n

/-- The token `dddssUNIT` (no gust group). -/
def mkWindTok (d s : ℕ) (unit : Tok) : Tok := digits3 d ++ digits23 s ++ unit

/-- The standalone variable-direction-range token `dddVddd`. -/
def mkVarTok (a b : ℕ) : Tok := digits3 a ++ 'V' :: digits3 b

lemma takeDigitsAux_digits3 (acc n : ℕ) (r : Tok) :
    takeDigitsAux acc 3 (digits3 n ++ r) = some (acc * 1000 + n % 1000, r) := by
  simp only [digits3, List.cons_append, List.nil_append, takeDigitsAux, dChar_isDigit,
    if_true, dval_dChar]
  congr 2
  have h1 : n / 100 % 10 = n / 100 % 10 := rfl
  omega

lemma takeDigitsAux_digits2 (acc n : ℕ) (r : Tok) :
    takeDigitsAux acc 2 (digits2 n ++ r) = some (acc * 100 + n % 100, r) := by
  simp only [digits2, List.cons_append, List.nil_append, takeDigitsAux, dChar_isDigit,
    if_true, dval_dChar]
  congr 2
  omega

lemma takeDigits_digits3 (n : ℕ) (hn : n < 1000) (r : Tok) :
    takeDigits 3 (digits3 n ++ r) = some (n, r) := by
  unfold takeDigits
  rw [takeDigitsAux_digits3]
  congr 2
  omega

lemma takeDigits_digits2 (n : ℕ) (hn : n < 100) (r : Tok) :
    takeDigits 2 (digits2 n ++ r) = some (n, r) := by
  unfold takeDigits
  rw [takeDigitsAux_digits2]
  congr 2
  omega

lemma takeDigitsAux_cons_nondigit (acc k : ℕ) (c : Char) (r : Tok) (hc : c.isDigit = false) :
    takeDigitsAux acc (k + 1) (c :: r) = none := by
  simp [takeDigitsAux, hc]

lemma takeDigits3_digits2_nondigit (n : ℕ) (c : Char) (r : Tok) (hc : c.isDigit = false) :
    takeDigits 3 (digits2 n ++ c :: r) = none := by
  simp [takeDigits, digits2, takeDigitsAux, dChar_isDigit, hc]

/-! ## Substring-test lemmas -/

lemma containsSub_append_self (n pre : Tok) : containsSub n (pre ++ n) = true := by
  induction pre with
  | nil =>
    cases n with
    | nil => rfl
    | cons c cs =>
      simp only [List.nil_append, containsSub, Bool.or_eq_true]
      exact Or.inl (List.isPrefixOf_iff_prefix.mpr List.prefix_rfl)
  | cons a t ih => simp [containsSub, ih]

lemma containsSub_eq_false (c : Char) (n hay : Tok) (h : c ∉ hay) :
    containsSub (c :: n) hay = false := by
  induction hay with
  | nil => simp [containsSub, List.isPrefixOf]
  | cons a t ih =>
    have hca : c ≠ a := fun hh => h (hh ▸ List.mem_cons_self a t)
    have hct : c ∉ t := fun hh => h (List.mem_cons_of_mem a hh)
    simp [containsSub, List.isPrefixOf, hca, ih hct]

lemma not_mem_digits3 (ch : Char) (hch : ch.isDigit = false) (n : ℕ) : ch ∉ digits3 n := by
  have h1 := Ne.symm (dChar_ne (n / 100) ch hch)
  have h2 := Ne.symm (dChar_ne (n / 10) ch hch)
  have h3 := Ne.symm (dChar_ne n ch hch)
  simp [digits3, h1, h2, h3]

lemma not_mem_digits23 (ch : Char) (hch : ch.isDigit = false) (n : ℕ) : ch ∉ digits23 n := by
  have h1 := Ne.symm (dChar_ne (n / 10) ch hch)
  have h2 := Ne.symm (dChar_ne n ch hch)
  unfold digits23
  split_ifs
  · simp [digits2, h1, h2]
  · exact not_mem_digits3 ch hch n

lemma not_mem_mkWindTok (ch : Char) (hch : ch.isDigit = false) (d s : ℕ) (unit : Tok)
    (hu : ch ∉ unit) : ch ∉ mkWindTok d s unit := by
  unfold mkWindTok
  simp only [List.mem_append, not_or]
  exact ⟨⟨not_mem_digits3 ch hch d, not_mem_digits23 ch hch s⟩, hu⟩

/-! ## Regex-matcher lemmas on constructed tokens -/

lemma matchSpeedRest_mk (unit : Tok) (c : Char) (u' : Tok) (hu : unit = c :: u')
    (hc : c.isDigit = false) (hgust : matchGustUnit unit unit = some none)
    (s : ℕ) (hs : s < 1000) :
    matchSpeedRest unit (digits23 s ++ unit) = some (s, none) := by
  unfold matchSpeedRest
  by_cases h100 : s < 100
  · rw [digits23, if_pos h100]
    rw [show digits2 s ++ unit = digits2 s ++ c :: u' from by rw [hu]]
    rw [takeDigits3_digits2_nondigit _ _ _ hc]
    rw [show digits2 s ++ c :: u' = digits2 s ++ unit from by rw [hu]]
    rw [takeDigits_digits2 _ h100]
    simp [hgust]
  · rw [digits23, if_neg h100, takeDigits_digits3 _ hs]
    simp [hgust]

lemma matchStdWind_mk (unit : Tok) (c : Char) (u' : Tok) (hu : unit = c :: u')
    (hc : c.isDigit = false) (hgust : matchGustUnit unit unit = some none)
    (d s : ℕ) (hd : d < 1000) (hs : s < 1000) :
    matchStdWind unit (mkWindTok d s unit) = some (d, s, none) := by
  unfold matchStdWind mkWindTok
  rw [List.append_assoc, takeDigits_digits3 _ hd,
    show (some (d, digits23 s ++ unit) >>= fun x => matchSpeedRest unit x.2 >>= fun y =>
      pure (x.1, y.1, y.2)) = matchSpeedRest unit (digits23 s ++ unit) >>= fun y =>
      pure (d, y.1, y.2) from rfl]
  rw [matchSpeedRest_mk unit c u' hu hc hgust s hs]
  rfl

lemma matchVrbWind_mk (unit : Tok) (d s : ℕ) : matchVrbWind unit (mkWindTok d s unit) = none := by
  unfold matchVrbWind mkWindTok digits3
  have hV : ('V' : Char) ≠ dChar (d / 100) := Ne.symm (dChar_ne (d / 100) 'V' (by decide))
  simp [List.isPrefixOf, hV]

/-! ## `windStep` on constructed tokens -/

lemma containsSub_KT_mkWindTok (d s : ℕ) :
    containsSub ['K', 'T'] (mkWindTok d s ['K', 'T']) = true := by
  have h : mkWindTok d s ['K', 'T'] = (digits3 d ++ digits23 s) ++ ['K', 'T'] := by
    simp [mkWindTok, List.append_assoc]
  rw [h]
  exact containsSub_append_self _ _

lemma containsSub_MPS_mkWindTok (d s : ℕ) :
    containsSub ['M', 'P', 'S'] (mkWindTok d s ['M', 'P', 'S']) = true := by
  have h : mkWindTok d s ['M', 'P', 'S'] = (digits3 d ++ digits23 s) ++ ['M', 'P', 'S'] := by
    simp [mkWindTok, List.append_assoc]
  rw [h]
  exact containsSub_append_self _ _

lemma containsSub_KT_mkWindTok_MPS (d s : ℕ) :
    containsSub ['K', 'T'] (mkWindTok d s ['M', 'P', 'S']) = false :=
  containsSub_eq_false 'K' ['T'] _
    (not_mem_mkWindTok 'K' (by decide) d s ['M', 'P', 'S'] (by decide))

/-- `windStep` on a valid `dddssKT` token: direction and speed are
overwritten, gust and the variable marker are left as they were. -/
lemma windStep_mkKt (r : WindData) (d s : ℕ) (hd : d ≤ 360) (hs1 : 1 ≤ s) (hs2 : s ≤ 200) :
    windStep r (mkWindTok d s ['K', 'T']) =
      { r with direction := some (d : ℚ),
               speed := some (pyRound 1 ((s : ℚ) * KNOTS_TO_KMH)) } := by
  have hstd := matchStdWind_mk ['K', 'T'] 'K' ['T'] rfl (by decide) (by decide) d s
    (by omega) (by omega)
  simp only [windStep, containsSub_KT_mkWindTok, if_true,
    matchVrbWind_mk ['K', 'T'] d s, hstd]
  rw [if_neg (by omega : ¬(s = 0 ∧ d = 0)), if_pos hd, if_pos hs2]

/-- `windStep` on a `dddssKT` token whose direction is out of range: the
token is discarded and the result is untouched. -/
lemma windStep_mkKt_badDir (r : WindData) (d s : ℕ) (hd1 : 361 ≤ d) (hd2 : d ≤ 999)
    (hs : s ≤ 999) :
    windStep r (mkWindTok d s ['K', 'T']) = r := by
  have hstd := matchStdWind_mk ['K', 'T'] 'K' ['T'] rfl (by decide) (by decide) d s
    (by omega) (by omega)
  simp only [windStep, containsSub_KT_mkWindTok, if_true,
    matchVrbWind_mk ['K', 'T'] d s, hstd]
  rw [if_neg (by omega : ¬(s = 0 ∧ d = 0)), if_neg (by omega : ¬(d ≤ 360))]

/-- `windStep` on a `dddssKT` token with a valid direction but an
out-of-range speed: the already validated direction is written, speed and
gust are not. -/
lemma windStep_mkKt_badSpeed (r : WindData) (d s : ℕ) (hd : d ≤ 360) (hs1 : 201 ≤ s)
    (hs2 : s ≤ 999) :
    windStep r (mkWindTok d s ['K', 'T']) = { r with direction := some (d : ℚ) } := by
  have hstd := matchStdWind_mk ['K', 'T'] 'K' ['T'] rfl (by decide) (by decide) d s
    (by omega) (by omega)
  simp only [windStep, containsSub_KT_mkWindTok, if_true,
    matchVrbWind_mk ['K', 'T'] d s, hstd]
  rw [if_neg (by omega : ¬(s = 0 ∧ d = 0)), if_pos hd, if_neg (by omega : ¬(s ≤ 200))]

lemma windStep_mkMps_badDir (r : WindData) (d s : ℕ) (hd1 : 361 ≤ d) (hd2 : d ≤ 999)
    (hs : s ≤ 999) :
    windStep r (mkWindTok d s ['M', 'P', 'S']) = r := by
  have hstd := matchStdWind_mk ['M', 'P', 'S'] 'M' ['P', 'S'] rfl (by decide) (by decide) d s
    (by omega) (by omega)
  simp only [windStep, containsSub_KT_mkWindTok_MPS, containsSub_MPS_mkWindTok,
    Bool.false_eq_true, if_false, if_true, matchVrbWind_mk ['M', 'P', 'S'] d s, hstd]
  rw [if_neg (by omega : ¬(s = 0 ∧ d = 0)), if_neg (by omega : ¬(d ≤ 360))]

lemma windStep_mkMps_badSpeed (r : WindData) (d s : ℕ) (hd : d ≤ 360) (hs1 : 101 ≤ s)
    (hs2 : s ≤ 999) :
    windStep r (mkWindTok d s ['M', 'P', 'S']) = { r with direction := some (d : ℚ) } := by
  have hstd := matchStdWind_mk ['M', 'P', 'S'] 'M' ['P', 'S'] rfl (by decide) (by decide) d s
    (by omega) (by omega)
  simp only [windStep, containsSub_KT_mkWindTok_MPS, containsSub_MPS_mkWindTok,
    Bool.false_eq_true, if_false, if_true, matchVrbWind_mk ['M', 'P', 'S'] d s, hstd]
  rw [if_neg (by omega : ¬(s = 0 ∧ d = 0)), if_pos hd, if_neg (by omega : ¬(s ≤ 100))]

/-- `windStep` on a standalone `dddVddd` variable-range token: only the
`variable` entry changes. -/
lemma windStep_mkVarTok (r : WindData) (a b : ℕ) (ha : a ≤ 360) (hb : b ≤ 360) :
    windStep r (mkVarTok a b) = { r with variable_ := some (fmtDeg a b) } := by
  have hVne : ('K' : Char) ≠ 'V' := by decide
  have hkt : containsSub ['K', 'T'] (mkVarTok a b) = false := by
    refine containsSub_eq_false 'K' ['T'] _ ?_
    simp only [mkVarTok, List.mem_append, List.mem_cons, not_or]
    exact ⟨not_mem_digits3 'K' (by decide) a, hVne, not_mem_digits3 'K' (by decide) b⟩
  have hmps : containsSub ['M', 'P', 'S'] (mkVarTok a b) = false := by
    refine containsSub_eq_false 'M' ['P', 'S'] _ ?_
    simp only [mkVarTok, List.mem_append, List.mem_cons, not_or]
    exact ⟨not_mem_digits3 'M' (by decide) a, by decide, not_mem_digits3 'M' (by decide) b⟩
  have hV : (mkVarTok a b).contains 'V' = true := by
    refine List.elem_eq_true_of_mem ?_
    simp [mkVarTok]
  have hlen : (mkVarTok a b).length = 7 := by simp [mkVarTok, digits3]
  have hmatch : matchVarRange (mkVarTok a b) = some (a, b) := by
    unfold matchVarRange mkVarTok
    rw [takeDigits_digits3 a (by omega)]
    simp only [Option.bind_eq_bind, Option.some_bind, matchVarRange.matchVarRangeTail]
    rw [show digits3 b = digits3 b ++ [] from (List.append_nil _).symm,
      takeDigits_digits3 b (by omega)]
    rfl
  simp only [windStep, hkt, hmps, Bool.false_eq_true, if_false, hV, hlen]
  norm_num [hmatch, ha, hb]

/-! ## C3: which wind token wins -/

/-- C3 counterexample: in a report with two syntactically valid main wind
tokens (`27010KT` then `18005KT`), the decoded direction comes from the
*last* one (180°), not the first (270°), refuting the claimed first-wins
tie-break. -/
theorem C3_counterexample_last_wind_token_wins :
    (parse_wind (pySplit "ULLI 271200Z 27010KT 18005KT")).direction = some 180 ∧
    (180 : ℚ) ≠ 270 := by
  constructor
  · decide
  · norm_num

/-- C3 (amended): when several syntactically valid main wind tokens occur,
the *last* one wins: appending a valid `dddssKT` token to any report
overwrites direction and speed with its values; a standalone `dddVddd`
token updates only the `variable` entry, independently of the main match. -/
theorem C3_amended_last_valid_wind_wins (ps : List Tok) (r : WindData) (d s a b : ℕ) :
    (d ≤ 360 → 1 ≤ s → s ≤ 200 →
      (parse_wind (ps ++ [mkWindTok d s ['K', 'T']])).direction = some (d : ℚ) ∧
      (parse_wind (ps ++ [mkWindTok d s ['K', 'T']])).speed =
        some (pyRound 1 ((s : ℚ) * KNOTS_TO_KMH))) ∧
    (a ≤ 360 → b ≤ 360 →
      windStep r (mkVarTok a b) = { r with variable_ := some (fmtDeg a b) }) := by
  constructor
  · intro hd hs1 hs2
    unfold parse_wind
    rw [List.foldl_append, List.foldl_cons, List.foldl_nil,
      windStep_mkKt _ d s hd hs1 hs2]
    exact ⟨rfl, rfl⟩
  · intro ha hb
    exact windStep_mkVarTok r a b ha hb

/-- Witness for C3 (amended) at concrete inputs. -/
theorem C3_witness :
    (parse_wind (pySplit "ULLI 271200Z 27010KT" ++ [mkWindTok 180 5 ['K', 'T']])).direction =
      some (180 : ℚ) ∧
    windStep windInit (mkVarTok 180 240) =
      { windInit with variable_ := some (fmtDeg 180 240) } :=
  ⟨((C3_amended_last_valid_wind_wins (pySplit "ULLI 271200Z 27010KT") windInit 180 5 180 240).1
      (by norm_num) (by norm_num) (by norm_num)).1,
    (C3_amended_last_valid_wind_wins [] windInit 180 5 180 240).2 (by norm_num) (by norm_num)⟩

/-! ## C4: rejection of out-of-range wind tokens -/

/-- C4 counterexample: for `270999KT` (valid direction 270, speed 999 kt
over the 200 kt ceiling) the token is *not* discarded wholesale — the
direction has already been written when the speed check fails, so only
speed and gust stay absent. -/
theorem C4_counterexample_direction_kept_on_bad_speed :
    (parse_wind (pySplit "ULLI 271200Z 270999KT")).direction = some 270 ∧
    (parse_wind (pySplit "ULLI 271200Z 270999KT")).speed = none ∧
    (parse_wind (pySplit "ULLI 271200Z 270999KT")).gust = none := by
  refine ⟨by decide, by decide, by decide⟩

/-- C4 (amended): a wind token with an out-of-range *direction* is discarded
entirely (no field is written and scanning continues unchanged); a token
with a valid direction but an out-of-range *speed* (over 200 kt for `KT`,
over 100 m/s for `MPS`) writes the already validated direction and leaves
speed and gust unset; in both cases no exception is raised and the
remaining tokens are processed as before. -/
theorem C4_amended_wind_token_rejection (r : WindData) (rest : List Tok) (d s : ℕ) :
    (361 ≤ d → d ≤ 999 → s ≤ 999 →
      List.foldl windStep r (mkWindTok d s ['K', 'T'] :: rest) = List.foldl windStep r rest ∧
      List.foldl windStep r (mkWindTok d s ['M', 'P', 'S'] :: rest) =
        List.foldl windStep r rest) ∧
    (d ≤ 360 → 201 ≤ s → s ≤ 999 →
      List.foldl windStep r (mkWindTok d s ['K', 'T'] :: rest) =
        List.foldl windStep { r with direction := some (d : ℚ) } rest) ∧
    (d ≤ 360 → 101 ≤ s → s ≤ 999 →
      List.foldl windStep r (mkWindTok d s ['M', 'P', 'S'] :: rest) =
        List.foldl windStep { r with direction := some (d : ℚ) } rest) := by
  refine ⟨fun hd1 hd2 hs => ⟨?_, ?_⟩, fun hd hs1 hs2 => ?_, fun hd hs1 hs2 => ?_⟩
  · rw [List.foldl_cons, windStep_mkKt_badDir r d s hd1 hd2 hs]
  · rw [List.foldl_cons, windStep_mkMps_badDir r d s hd1 hd2 hs]
  · rw [List.foldl_cons, windStep_mkKt_badSpeed r d s hd hs1 hs2]
  · rw [List.foldl_cons, windStep_mkMps_badSpeed r d s hd hs1 hs2]

/-- Witness for C4 (amended) at concrete inputs. -/
theorem C4_witness :
    List.foldl windStep windInit (mkWindTok 370 10 ['K', 'T'] :: []) =
      List.foldl windStep windInit [] ∧
    List.foldl windStep windInit (mkWindTok 270 999 ['K', 'T'] :: []) =
      List.foldl windStep { windInit with direction := some (270 : ℚ) } [] :=
  ⟨((C4_amended_wind_token_rejection windInit [] 370 10).1 (by norm_num) (by norm_num)
      (by norm_num)).1,
    (C4_amended_wind_token_rejection windInit [] 270 999).2.1 (by norm_num) (by norm_num)
      (by norm_num)⟩

/-! ## C5: decoding of valid wind tokens -/

/-- C5: a valid `dddssKT` token decodes to direction `ddd` (as a float) and
speed `round(ss * 1.852, 1)` km/h; `VRB03G10KT` gives a variable wind with
no direction, speed 5.6 km/h and gust 18.5 km/h; `00000KT` gives calm wind
with speed 0.0, no direction and no variable marker. -/
theorem C5_wind_token_decoding :
    (∀ d s : ℕ, d ≤ 360 → 1 ≤ s → s ≤ 200 →
      (parse_wind [mkWindTok d s ['K', 'T']]).direction = some (d : ℚ) ∧
      (parse_wind [mkWindTok d s ['K', 'T']]).speed =
        some (pyRound 1 ((s : ℚ) * KNOTS_TO_KMH))) ∧
    parse_wind [['V', 'R', 'B', '0', '3', 'G', '1', '0', 'K', 'T']] =
      { speed := some 5.6, direction := none, gust := some 18.5, variable_ := some "VRB" } ∧
    parse_wind [['0', '0', '0', '0', '0', 'K', 'T']] =
      { speed := some 0.0, direction := none, gust := none, variable_ := none } := by
  refine ⟨fun d s hd hs1 hs2 => ?_, ?_, ?_⟩
  · unfold parse_wind
    rw [List.foldl_cons, List.foldl_nil, windStep_mkKt _ d s hd hs1 hs2]
    exact ⟨rfl, rfl⟩
  · have h1 : containsSub ['K', 'T'] ['V', 'R', 'B', '0', '3', 'G', '1', '0', 'K', 'T'] =
        true := by decide
    have h2 : matchVrbWind ['K', 'T'] ['V', 'R', 'B', '0', '3', 'G', '1', '0', 'K', 'T'] =
        some (3, some 10) := by decide
    unfold parse_wind
    rw [List.foldl_cons, List.foldl_nil]
    simp only [windStep, h1, if_true, h2]
    norm_num [windInit, pyRound, rhe, KNOTS_TO_KMH]
  · have h1 : containsSub ['K', 'T'] ['0', '0', '0', '0', '0', 'K', 'T'] = true := by decide
    have h2 : matchVrbWind ['K', 'T'] ['0', '0', '0', '0', '0', 'K', 'T'] = none := by decide
    have h3 : matchStdWind ['K', 'T'] ['0', '0', '0', '0', '0', 'K', 'T'] =
        some (0, 0, none) := by decide
    unfold parse_wind
    rw [List.foldl_cons, List.foldl_nil]
    simp only [windStep, h1, if_true, h2, h3]
    norm_num [windInit]

/-- Witness for C5 at a concrete valid token (`27010KT`). -/
theorem C5_witness :
    (parse_wind [mkWindTok 270 10 ['K', 'T']]).direction = some (270 : ℚ) ∧
    (parse_wind [mkWindTok 270 10 ['K', 'T']]).speed =
      some (pyRound 1 ((10 : ℚ) * KNOTS_TO_KMH)) :=
  C5_wind_token_decoding.1 270 10 (by norm_num) (by norm_num) (by norm_num)

/-! ## C7: temperature/dew-point pairs are accepted or rejected as a unit -/

/-- C7: the result of `_parse_temp_dew` is always either both fields absent
or both present with values inside `[-100, 60]` °C — an out-of-range side
discards the pair as a unit, never one value alone. -/
theorem C7_temp_dew_pair_atomicity (parts : List Tok) :
    parse_temp_dew parts = (none, none) ∨
    ∃ t d, parse_temp_dew parts = (some t, some d) ∧
      (-100 ≤ t ∧ t ≤ 60) ∧ (-100 ≤ d ∧ d ≤ 60) := by
  induction parts with
  | nil => exact Or.inl rfl
  | cons part rest ih =>
    rw [parse_temp_dew]
    repeat' split
    all_goals try exact ih
    all_goals try exact Or.inl rfl
    rename_i h1 h2
    exact Or.inr ⟨_, _, rfl, not_not.mp h1, not_not.mp h2⟩

/-! ## C8: multi-source selection -/

/-- An AWC (primary) report with no pressure/temperature/wind at all. -/
def awcIncompleteReport : ParsedData :=
  { raw_metar := "ULLI 271200Z", station_name := some "ULLI", cloud_layers := [],
    cloud_coverage_state := "Clear", cloud_coverage_height := none,
    cloud_coverage_type := "N/A", weather := "Clear", trend := none,
    temperature := none, dew_point := none, humidity := none,
    wind_speed := none, wind_direction := none, wind_gust := none,
    wind_variable_direction := none, visibility := none, pressure := none,
    cavok := false, auto := false }

/-- An AVWX (fallback) report with a complete, in-range pressure /
temperature / wind triple. -/
def avwxCompleteReport : ParsedData :=
  { raw_metar := "ULLI 271200Z 27010KT 05/02 Q1013", station_name := some "ULLI",
    cloud_layers := [], cloud_coverage_state := "Clear", cloud_coverage_height := none,
    cloud_coverage_type := "N/A", weather := "Clear", trend := none,
    temperature := some 5, dew_point := some 2, humidity := none,
    wind_speed := some 18, wind_direction := some 270, wind_gust := none,
    wind_variable_direction := none, visibility := none, pressure := some 1013,
    cavok := false, auto := false }

/-- C8 counterexample: with both sources' decoded reports available, the
fallback one having a complete in-range pressure/temperature/wind triple
and the primary one having none of the three, `fetch_data` still returns
the primary report — there is no completeness comparison in the code. -/
theorem C8_counterexample_primary_wins_regardless :
    fetch_data (some awcIncompleteReport) (some avwxCompleteReport) =
      some awcIncompleteReport ∧
    specCompleteTriple avwxCompleteReport = true ∧
    specCompleteTriple awcIncompleteReport = false ∧
    awcIncompleteReport ≠ avwxCompleteReport := by
  refine ⟨rfl, by decide, by decide, by decide⟩

/-- C8 (amended): `fetch_data` always returns the primary (AWC) report
whenever that source yields one — regardless of completeness — and the
fallback report only otherwise; the result is always one source's decoded
report wholesale (never a field-wise merge of the two). -/
theorem C8_amended_wholesale_primary_first (awc avwx : Option ParsedData) :
    (fetch_data awc avwx = awc ∨ fetch_data awc avwx = avwx) ∧
    (∀ r, awc = some r → fetch_data awc avwx = some r) := by
  cases awc with
  | none => exact ⟨Or.inr rfl, fun r h => by cases h⟩
  | some d => exact ⟨Or.inl rfl, fun r h => by rw [← h]; rfl⟩

/-- Witness for C8 (amended) at concrete reports. -/
theorem C8_witness :
    fetch_data (some awcIncompleteReport) (some avwxCompleteReport) =
      some awcIncompleteReport :=
  (C8_amended_wholesale_primary_first (some awcIncompleteReport)
    (some avwxCompleteReport)).2 awcIncompleteReport rfl

/-! ## C10: the visibility search window -/

lemma take_window_eq (l : List Tok) (i : ℕ) :
    (l.drop (i + 1)).take (min (i + 4) l.length - (i + 1)) = (l.drop (i + 1)).take 3 := by
  by_cases h : i + 4 ≤ l.length
  · rw [min_eq_left h]
    congr 1
    omega
  · rw [min_eq_right (by omega : l.length ≤ i + 4)]
    have hlen : (l.drop (i + 1)).length = l.length - (i + 1) := by simp
    rw [List.take_of_length_le (by omega), List.take_of_length_le (by omega)]

/-- C10: for every report without CAVOK, the decoded visibility is exactly
the result of scanning the claim's window — the 3 tokens after the first
token ending in `KT`/`MPS` (positions 3–5 when there is no such token) —
so tokens outside that window can never produce a visibility value, and a
stop token inside it (cloud/temperature/pressure shaped) ends the scan. -/
theorem C10_visibility_window (raw : String)
    (hc : containsSub "CAVOK".toList raw.toList = false) :
    (get_parsed_data raw).visibility = visScan none (specVisWindow (pySplit raw)) := by
  show parseVisibility (containsSub "CAVOK".toList raw.toList) (pySplit raw) = _
  rw [hc]
  unfold parseVisibility specVisWindow windTokIdx
  rw [if_neg (by simp)]
  cases hidx : (pySplit raw).findIdx?
      (fun part => ['K', 'T'].isSuffixOf part || ['M', 'P', 'S'].isSuffixOf part) with
  | none => simp only [Option.getD_none, take_window_eq]
  | some i => simp only [Option.getD_some, take_window_eq]

/-- Witness for C10 at a concrete report. -/
theorem C10_witness :
    (get_parsed_data "KJFK 151200Z 27010KT 9999 05/02 Q1013").visibility =
      visScan none (specVisWindow (pySplit "KJFK 151200Z 27010KT 9999 05/02 Q1013")) :=
  C10_visibility_window "KJFK 151200Z 27010KT 9999 05/02 Q1013" (by decide)

/-! ## C6: visibility sentinels and CAVOK -/

/-- C6: a `9999` meters token decodes to 10.0 km; `1/2SM` decodes to
`round(0.5 * 1.60934, 1) = 0.8` km; and whenever `CAVOK` occurs anywhere in
the raw report, the decoded visibility is 10.0 km and the `cavok` flag is
true, regardless of any other visibility token. -/
theorem C6_visibility_sentinels_and_cavok :
    (∀ raw : String, containsSub "CAVOK".toList raw.toList = true →
      (get_parsed_data raw).visibility = some 10 ∧ (get_parsed_data raw).cavok = true) ∧
    (get_parsed_data "KJFK 151200Z 27010KT 9999 FEW250 Q1013").visibility = some 10 ∧
    (get_parsed_data "KJFK 151200Z 27010KT 1/2SM").visibility = some 0.8 ∧
    pyRound 1 ((1 : ℚ) / 2 * MILES_TO_KM) = 0.8 := by
  refine ⟨fun raw h => ⟨?_, ?_⟩, ?_, ?_, ?_⟩
  · show parseVisibility (containsSub "CAVOK".toList raw.toList) (pySplit raw) = some 10
    rw [h]
    rfl
  · show containsSub "CAVOK".toList raw.toList = true
    exact h
  · decide
  · show visScan none [['1', '/', '2', 'S', 'M']] = some 0.8
    have h1 : isDddVddd ['1', '/', '2', 'S', 'M'] = false := by decide
    have h2 : (['R'].isPrefixOf ['1', '/', '2', 'S', 'M'] &&
      List.contains ['1', '/', '2', 'S', 'M'] '/') = false := by decide
    have h3 : matchMeters4 ['1', '/', '2', 'S', 'M'] = none := by decide
    have h4 : matchMeters4NDV ['1', '/', '2', 'S', 'M'] = none := by decide
    have h5 : matchMeters4Dir ['1', '/', '2', 'S', 'M'] = none := by decide
    have h6 : matchSM ['1', '/', '2', 'S', 'M'] = none := by decide
    have h7 : matchFracSM ['1', '/', '2', 'S', 'M'] = some (1, 2) := by decide
    simp only [visScan, h1, h2, h3, h4, h5, h6, h7, Bool.false_eq_true, if_false]
    norm_num [pyRound, rhe, MILES_TO_KM]
  · norm_num [pyRound, rhe, MILES_TO_KM]

/-- Witness for C6 at a concrete CAVOK report. -/
theorem C6_witness :
    (get_parsed_data "KJFK 151200Z 27010KT CAVOK 05/02 Q1013").visibility = some 10 ∧
    (get_parsed_data "KJFK 151200Z 27010KT CAVOK 05/02 Q1013").cavok = true :=
  C6_visibility_sentinels_and_cavok.1 "KJFK 151200Z 27010KT CAVOK 05/02 Q1013" (by decide)

/-! ## C2: behaviour of the decode call on empty/garbage input -/

/-- The record `get_parsed_data` returns for an empty raw string. -/
def emptyParsedData : ParsedData :=
  { raw_metar := "", station_name := none, cloud_layers := [],
    cloud_coverage_state := "Clear", cloud_coverage_height := none,
    cloud_coverage_type := "N/A", weather := "Clear", trend := none,
    temperature := none, dew_point := none, humidity := none,
    wind_speed := none, wind_direction := none, wind_gust := none,
    wind_variable_direction := none, visibility := none, pressure := none,
    cavok := false, auto := false }

/-- C2 counterexample: on the empty input the decode call does *not* return
a hard failure — it returns an ordinary record (every parsed field absent,
weather `"Clear"`), i.e. a partial record is produced. -/
theorem C2_counterexample_empty_input_yields_record :
    get_parsed_data "" = emptyParsedData := by
  decide

/-- C2 (amended): `get_parsed_data` never fails hard: garbage input yields a
record with all parsed fields absent, and a headerless report still decodes
whatever fields its tokens contain (the hard failure for an empty report is
raised by the fetch layer before the parser is invoked, not by the decode
call). -/
theorem C2_amended_decode_total :
    get_parsed_data "@@@@ ####" =
      { raw_metar := "@@@@ ####", station_name := none, cloud_layers := [],
        cloud_coverage_state := "Clear", cloud_coverage_height := none,
        cloud_coverage_type := "N/A", weather := "Clear", trend := none,
        temperature := none, dew_point := none, humidity := none,
        wind_speed := none, wind_direction := none, wind_gust := none,
        wind_variable_direction := none, visibility := none, pressure := none,
        cavok := false, auto := false } ∧
    (get_parsed_data "27010KT").wind_direction = some 270 ∧
    (get_parsed_data "27010KT").wind_speed = some 18.5 := by
  refine ⟨by decide, by decide, ?_⟩
  show (parse_wind (pySplit "27010KT")).speed = some 18.5
  have h : pySplit "27010KT" = [mkWindTok 270 10 ['K', 'T']] := by decide
  rw [h]
  unfold parse_wind
  rw [List.foldl_cons, List.foldl_nil, windStep_mkKt _ 270 10 (by norm_num) (by norm_num)
    (by norm_num)]
  norm_num [pyRound, rhe, KNOTS_TO_KMH]
